import Mathlib

/-!
Verification development for the stock-checker repository.

The definitions below are a shallow embedding of the Go source:

* `backend/internal/bestbuy/client.go` — the rate-limited Best Buy API
  client (`APIClient.doRequest` and the operations built on it);
* `backend/internal/bestbuy/mock.go` — the fixture (`MockClient`) variant;
* `backend/internal/handler/stockchecker.go` — the `CheckStock`
  aggregation loop.

Time is modelled as a natural-number wall clock in nanoseconds (the unit
of Go `time.Duration`).  Sleeps advance the clock by exactly the requested
duration, which is the lower bound Go's `time.After` guarantees; any
scheduler slack and the duration of each HTTP round-trip are absorbed into
the per-attempt `delay` supplied by the attempt oracle, so every real
execution corresponds to some instantiation of the model.  Context
cancellation is not exercised by the claims under verification and the
context is modelled as never cancelled.
-/

namespace StockChecker

deriving instance DecidableEq for Except

/-- Boolean test that `pat` occurs at the start of `s` (on character lists). -/
def charsStartWith : List Char → List Char → Bool
  | [], _ => true
  | _ :: _, [] => false
  | a :: as, b :: bs => a == b && charsStartWith as bs

/-- Boolean substring test on character lists: `pat` occurs somewhere in `s`. -/
def charsContain (pat : List Char) : List Char → Bool
  | [] => pat.isEmpty
  | b :: bs => charsStartWith pat (b :: bs) || charsContain pat bs

/-- Embedding of Go `strings.Contains(s, pat)`. -/
def strContains (s pat : String) : Bool :=
  charsContain pat.data s.data

/-- Nanoseconds per second, the scale of Go `time.Second`. -/
def nanosPerSecond : Nat := 1000000000

/-- Embedding of `time.ParseDuration(ra + "s")` as used on the
`Retry-After` header in `doRequest`: an integer-seconds value (the format
of the Retry-After header) parses to that many seconds in nanoseconds.
Go's parser additionally accepts fractional and compound duration forms;
those are not produced by the header format and are modelled as
unparseable. -/
def parseRetryAfterStr (ra : String) : Option Nat :=
  (ra.toNat?).map (fun n => n * nanosPerSecond)

/-- The `Retry-After` header processing of `doRequest`: absent (or
unparseable) yields `none`, in which case the exponential default is
used. -/
def parseRetryAfterHeader : Option String → Option Nat
  | none => none
  | some ra => parseRetryAfterStr ra

/-- An HTTP response as observed by `doRequest`: status code, body text
and the optional `Retry-After` header. -/
structure Response where
  status : Nat
  body : String
  retryAfter : Option String
deriving DecidableEq

/-- Outcome of one outbound attempt: the transport fails
(`httpClient.Do` error), the body read fails (`io.ReadAll` error), or a
response arrives. -/
inductive Outcome
  | netErr (msg : String)
  | readErr (msg : String)
  | resp (r : Response)
deriving DecidableEq

/-- One entry of the attempt oracle: how long the round-trip took
(`delay`, absorbing scheduler slack) and what came back. -/
structure Attempt where
  delay : Nat
  outcome : Outcome

/-- The rate-limiting and retry configuration of `APIClient`
(`minInterval`, `maxRetries`, `retryBaseWait`), fixed at construction. -/
structure Config where
  minInterval : Nat
  maxRetries : Nat
  retryBaseWait : Nat
deriving DecidableEq

/-- The mutable client state: the current wall clock and the shared
`lastRequest` watermark. -/
structure RLState where
  now : Nat
  lastRequest : Nat
deriving DecidableEq

/-- Errors produced by `doRequest`, mirroring the `fmt.Errorf` /
`RateLimitError` values of the Go code.  `maxRetriesExceeded` wraps the
last observed failure; `maxRetriesNoFailure` is the case where Go's
`lastErr` is still `nil` at loop exit, reachable only when the loop runs
zero iterations. -/
inductive ReqError
  | netErr (msg : String)
  | readErr (msg : String)
  | rateLimited (retryAfter : Nat)
  | apiStatus (status : Nat) (body : String)
  | maxRetriesExceeded (last : ReqError)
  | maxRetriesNoFailure
deriving DecidableEq

/-- Embedding of Go `time.Duration.String()` for the durations appearing
in error messages.  Whole-second durations follow Go's `h`/`m`/`s`
rendering; sub-second durations are rendered as raw nanoseconds (the
client configuration only produces whole-second waits, so this
simplification is unobservable in the modelled paths). -/
def goDurationString (n : Nat) : String :=
  if n = 0 then "0s"
  else if n % nanosPerSecond = 0 then
    let secs := n / nanosPerSecond
    let h := secs / 3600
    let m := secs % 3600 / 60
    let sec := secs % 60
    (if h = 0 then "" else toString h ++ "h") ++
      (if h = 0 && m = 0 then "" else toString m ++ "m") ++
      toString sec ++ "s"
  else toString n ++ "ns"

/-- The `Error()` string of each `doRequest` error, mirroring the
`fmt.Errorf` format strings of the Go code.  `CheckAvailability` inspects
this string for the substring "403". -/
def reqErrorMessage : ReqError → String
  | .netErr m => "failed to execute request: " ++ m
  | .readErr m => "failed to read response: " ++ m
  | .rateLimited w => "rate limit exceeded, retry after " ++ goDurationString w
  | .apiStatus st b => "API returned status " ++ toString st ++ ": " ++ b
  | .maxRetriesExceeded e => "max retries exceeded: " ++ reqErrorMessage e
  | .maxRetriesNoFailure => "max retries exceeded: %!w(<nil>)"

/-- How `doRequest` classified one attempt; this is the control-flow
trace of the loop body made observable. -/
inductive AttemptEvent
  | netFail
  | readFail
  | rateLimited (wait : Nat)
  | terminalClient (status : Nat)
  | statusRetry (status : Nat) (wait : Nat)
  | success
deriving DecidableEq

/-- Everything observable about one `doRequest` call: its return value,
the wall-clock times at which requests were sent (one per attempt, in
order), the classification of each attempt, and the client state after
the call. -/
structure RunResult where
  result : Except ReqError String
  sends : List Nat
  events : List AttemptEvent
  finalState : RLState

/-- Embedding of the `isRateLimited` classification in `doRequest`:
status 429, or status 403 with the vendor phrase "per second limit" in
the body. -/
def isRateLimitedResp (r : Response) : Bool :=
  r.status == 429 || (r.status == 403 && strContains r.body "per second limit")

/-- How long the throttle at the top of the loop body sleeps: the
remainder of `minInterval` since the watermark, or nothing if the
interval has already elapsed. -/
def throttleWait (minInterval : Nat) (s : RLState) : Nat :=
  if s.now - s.lastRequest < minInterval then minInterval - (s.now - s.lastRequest) else 0

/-- What one loop iteration of `doRequest` does after the request was
sent, mirroring lines 166–222 of `client.go`: either return to the
caller (`done`) or record `lastErr`, sleep `wait`, and move to the next
attempt (`retry`). -/
inductive StepRes
  | done (res : Except ReqError String) (ev : AttemptEvent)
  | retry (e : ReqError) (wait : Nat) (ev : AttemptEvent)

/-- Classification of one attempt outcome by the `doRequest` loop body:
transport and read failures retry immediately; a rate-limited response
waits the `Retry-After` duration when parseable and the exponential
default `retryBaseWait * 2^attempt` otherwise; a non-200 status is
terminal when in 400..499 and retried with exponential backoff
otherwise; status 200 returns the body. -/
def attemptStep (cfg : Config) (attempt : Nat) : Outcome → StepRes
  | .netErr m => .retry (.netErr m) 0 .netFail
  | .readErr m => .retry (.readErr m) 0 .readFail
  | .resp r =>
    if isRateLimitedResp r then
      let wait := (parseRetryAfterHeader r.retryAfter).getD (cfg.retryBaseWait * 2 ^ attempt)
      .retry (.rateLimited wait) wait (.rateLimited wait)
    else if r.status ≠ 200 then
      if 400 ≤ r.status ∧ r.status < 500 then
        .done (.error (.apiStatus r.status r.body)) (.terminalClient r.status)
      else
        .retry (.apiStatus r.status r.body) (cfg.retryBaseWait * 2 ^ attempt)
          (.statusRetry r.status (cfg.retryBaseWait * 2 ^ attempt))
    else
      .done (.ok r.body) .success

/-- The retry loop of `doRequest`, recursing on the remaining number of
attempts (`fuel`).  Each iteration throttles to the shared watermark,
updates the watermark to the send time before sending, consults the
attempt oracle, and either returns or retries; exhausted fuel returns
the `max retries exceeded` wrapper around the last failure. -/
def doRequestAux (cfg : Config) (oracle : Nat → Attempt) :
    Nat → Nat → Option ReqError → RLState → RunResult
  | _, 0, lastErr, s =>
    { result := .error (match lastErr with
        | some e => .maxRetriesExceeded e
        | none => .maxRetriesNoFailure),
      sends := [], events := [], finalState := s }
  | attempt, fuel + 1, _, s =>
    let t := s.now + throttleWait cfg.minInterval s
    let a := oracle attempt
    match attemptStep cfg attempt a.outcome with
    | .done res ev =>
      { result := res, sends := [t], events := [ev],
        finalState := { now := t + a.delay, lastRequest := t } }
    | .retry e wait ev =>
      let rest := doRequestAux cfg oracle (attempt + 1) fuel (some e)
        { now := t + a.delay + wait, lastRequest := t }
      { result := rest.result, sends := t :: rest.sends, events := ev :: rest.events,
        finalState := rest.finalState }

/-- Embedding of `APIClient.doRequest`: the loop runs `maxRetries + 1`
iterations starting from attempt 0 with no recorded failure. -/
def doRequest (cfg : Config) (oracle : Nat → Attempt) (s : RLState) : RunResult :=
  doRequestAux cfg oracle 0 (cfg.maxRetries + 1) none s

/-- A sequence of logical calls issued back-to-back through one client
instance: each call threads the shared watermark state into the next.
Returns all send times in order together with the final state. -/
def runCalls (cfg : Config) : List (Nat → Attempt) → RLState → List Nat × RLState
  | [], s => ([], s)
  | o :: os, s =>
    let r := doRequest cfg o s
    let rest := runCalls cfg os r.finalState
    (r.sends ++ rest.1, rest.2)

/-- A Best Buy store as used by the modelled operations (`Store` in
`client.go`).  Presentation-only fields (address, phone, hours,
coordinates) are never read by the modelled code paths and are omitted;
`distance` is a float in Go and is modelled as a rational. -/
structure Store where
  storeID : Int
  name : String
  city : String
  state : String
  distance : Rat
deriving DecidableEq

/-- A Best Buy product as used by the modelled operations (`Product` in
`client.go`).  Description and media URL fields are never read by the
modelled code paths and are omitted. -/
structure Product where
  sku : Int
  name : String
  salePrice : Rat
  inStoreAvailability : Bool
  onlineAvailability : Bool
deriving DecidableEq

/-- Product availability at one store (`StoreAvailability` in
`client.go`). -/
structure StoreAvailability where
  storeID : String
  storeName : String
  city : String
  state : String
  distance : Rat
  inStock : Bool
  lowStock : Bool
  pickupEligible : Bool
deriving DecidableEq

/-- One product entry of the combined stores+products response
(`storesProductsResponse` in `client.go`). -/
structure SPProduct where
  sku : Int
  name : String
  inStorePickup : Bool
  friendsFamilyPickup : Bool
deriving DecidableEq

/-- One store row of the combined stores+products response
(`storesProductsResponse` in `client.go`). -/
structure SPRow where
  storeID : Int
  name : String
  city : String
  state : String
  distance : Rat
  products : List SPProduct
deriving DecidableEq

/-- Errors returned by the client operations: a failed underlying
request, or a `json.Unmarshal` failure. -/
inductive OpError
  | request (e : ReqError)
  | decodeFailed
deriving DecidableEq

/-- The shared shape of `SearchStores`, `GetProductBySKU`,
`SearchProductsInCategory` and `BrowsePokemonProducts` after the
request: a `doRequest` error propagates unchanged, an undecodable body
is a decode error, a decoded body is returned.  JSON decoding itself is
outside the model and supplied as an oracle. -/
def handleBody {α : Type} (dr : Except ReqError String) (decode : String → Option α) :
    Except OpError α :=
  match dr with
  | .error e => .error (.request e)
  | .ok body =>
    match decode body with
    | none => .error .decodeFailed
    | some v => .ok v

/-- Embedding of the response handling of `APIClient.SearchStores`. -/
def searchStoresHandle (dr : Except ReqError String) (decode : String → Option (List Store)) :
    Except OpError (List Store) :=
  handleBody dr decode

/-- Embedding of the response handling of `APIClient.GetProductBySKU`. -/
def getProductBySKUHandle (dr : Except ReqError String) (decode : String → Option Product) :
    Except OpError Product :=
  handleBody dr decode

/-- Embedding of the response handling of
`APIClient.BrowsePokemonProducts`. -/
def browsePokemonHandle (dr : Except ReqError String) (decode : String → Option (List Product)) :
    Except OpError (List Product) :=
  handleBody dr decode

/-- Embedding of the `skuPattern` regular expression of `client.go`
(six to eight decimal digits). -/
def looksLikeSKU (q : String) : Bool :=
  6 ≤ q.length && q.length ≤ 8 && q.data.all Char.isDigit

/-- Embedding of `APIClient.SearchProducts`: a SKU-looking query first
tries the direct lookup and returns its product when it succeeded with a
nonzero SKU; otherwise (including when the direct lookup failed) the
keyword-search request is handled as usual. -/
def searchProductsHandle (query : String) (skuLookup : Except OpError Product)
    (dr : Except ReqError String) (decode : String → Option (List Product)) :
    Except OpError (List Product) :=
  if looksLikeSKU query then
    match skuLookup with
    | .ok p => if p.sku ≠ 0 then .ok [p] else handleBody dr decode
    | .error _ => handleBody dr decode
  else handleBody dr decode

/-- The conversion loop of `APIClient.CheckAvailability`: every store
row of the response becomes a record with `inStock := true` (a store
appears in the response only if it has the product), `lowStock := false`
and pickup eligibility read off the first product entry. -/
def convertAvailability (rows : List SPRow) : List StoreAvailability :=
  rows.map fun st =>
    { storeID := toString st.storeID
      storeName := st.name
      city := st.city
      state := st.state
      distance := st.distance
      inStock := true
      lowStock := false
      pickupEligible := match st.products with
        | [] => false
        | p :: _ => p.inStorePickup }

/-- Embedding of the response handling of `APIClient.CheckAvailability`:
a `doRequest` error whose message contains "403" is converted into a
successful empty result (the code treats it as a restricted product);
any other error propagates; a decoded body is converted row by row. -/
def checkAvailabilityHandle (dr : Except ReqError String)
    (decode : String → Option (List SPRow)) : Except OpError (List StoreAvailability) :=
  match dr with
  | .error e =>
    if strContains (reqErrorMessage e) "403" then .ok []
    else .error (.request e)
  | .ok body =>
    match decode body with
    | none => .error .decodeFailed
    | some rows => .ok (convertAvailability rows)

/-! ### The fixture (`MockClient`) of `mock.go`

The fixture's availability roll is Go's `rand.New(rand.NewSource(seed)).Float64()`,
a deterministic pure function of the seed; it is modelled as an explicit
parameter `rollFn : Int → Rat` (rationals in place of the float roll, the
thresholds 0.1, 0.5, 0.7 being exact).  The process-global `math/rand`
generator that other `MockClient` operations (`SearchStores`) draw from is
modelled as an explicit state `GlobalRng` threaded through the call; the
fixed fixture latency involves no randomness and no claim mentions it, so
it is not modelled. -/

/-- The state of the process-global `math/rand` generator: the stream of
values it has yet to produce. -/
def GlobalRng : Type := List Rat

/-- The fixture store catalog (`mockStores` in `mock.go`), restricted to
the fields the modelled operations read.  The Go fixtures never set
`Distance`, so it is the zero value. -/
def mockStores : List Store :=
  [ { storeID := 1118, name := "Best Buy - San Francisco", city := "San Francisco",
      state := "CA", distance := 0 },
    { storeID := 1009, name := "Best Buy - Daly City", city := "Daly City",
      state := "CA", distance := 0 },
    { storeID := 187, name := "Best Buy - Emeryville", city := "Emeryville",
      state := "CA", distance := 0 },
    { storeID := 1444, name := "Best Buy - San Bruno", city := "San Bruno",
      state := "CA", distance := 0 },
    { storeID := 573, name := "Best Buy - Colma", city := "Colma",
      state := "CA", distance := 0 },
    { storeID := 499, name := "Best Buy - Oakland", city := "Oakland",
      state := "CA", distance := 0 } ]

/-- The fixture product catalog (`mockProducts` in `mock.go`), restricted
to the fields the modelled operations read. -/
def mockProducts : List Product :=
  [ { sku := 6579543, name := "Pokemon Trading Card Game: Scarlet & Violet Prismatic Evolutions Elite Trainer Box",
      salePrice := mkRat 5999 100, inStoreAvailability := true, onlineAvailability := false },
    { sku := 6579544, name := "Pokemon Trading Card Game: Scarlet & Violet Prismatic Evolutions Booster Bundle",
      salePrice := mkRat 2999 100, inStoreAvailability := true, onlineAvailability := false },
    { sku := 6579545, name := "Pokemon Trading Card Game: Scarlet & Violet Prismatic Evolutions Booster Pack",
      salePrice := mkRat 499 100, inStoreAvailability := true, onlineAvailability := true },
    { sku := 6543210, name := "Pokemon Trading Card Game: Scarlet & Violet 151 Ultra Premium Collection",
      salePrice := mkRat 13999 100, inStoreAvailability := false, onlineAvailability := false },
    { sku := 6543211, name := "Pokemon Trading Card Game: Scarlet & Violet 151 Elite Trainer Box",
      salePrice := mkRat 4999 100, inStoreAvailability := true, onlineAvailability := false },
    { sku := 6578901, name := "Pokemon Trading Card Game: Surging Sparks Elite Trainer Box",
      salePrice := mkRat 5499 100, inStoreAvailability := true, onlineAvailability := true },
    { sku := 6578902, name := "Pokemon Trading Card Game: Surging Sparks Booster Bundle",
      salePrice := mkRat 2499 100, inStoreAvailability := true, onlineAvailability := true },
    { sku := 6512345, name := "Pokemon Trading Card Game: Paldean Fates Elite Trainer Box",
      salePrice := mkRat 5999 100, inStoreAvailability := true, onlineAvailability := false } ]

/-- The seed of the fixture availability roll: the sum of the character
codes of `storeID ++ sku`, as computed by the `for _, c := range` loop in
`MockClient.CheckAvailability`. -/
def charSum (s : String) : Int :=
  (s.data.map (fun c => (c.toNat : Int))).sum

/-- The availability classification of `MockClient.CheckAvailability`
for one (store, product) pair: roll a seeded pseudorandom value and
compare against the fixture thresholds.  Returns `(inStock, lowStock)`. -/
def mockClassify (rollFn : Int → Rat) (carried : Bool) (storeID sku : String) : Bool × Bool :=
  let seed := charSum (storeID ++ sku)
  let roll := rollFn seed
  if !carried then
    (decide (roll < mkRat 1 10), false)
  else
    (decide (roll < mkRat 7 10), decide (mkRat 1 2 ≤ roll ∧ roll < mkRat 7 10))

/-- The store loop of `MockClient.CheckAvailability`: classify each
fixture store and keep only records with stock, mirroring the
`if inStock` append. -/
def mockAvailRows (rollFn : Int → Rat) (carried : Bool) (sku : String) :
    List Store → List StoreAvailability
  | [] => []
  | store :: rest =>
    let storeID := toString store.storeID
    let c := mockClassify rollFn carried storeID sku
    (if c.1 then
      [ { storeID := storeID, storeName := store.name, city := store.city,
          state := store.state, distance := store.distance,
          inStock := c.1, lowStock := c.2, pickupEligible := c.1 } ]
     else []) ++ mockAvailRows rollFn carried sku rest

/-- Embedding of `MockClient.CheckAvailability`.  Its second string
argument is a postal code, not a store-identifier list, exactly as in
`mock.go`; the product is looked up in the fixture catalog by formatted
SKU and availability is generated for every fixture store.  The global
generator state is returned untouched: this operation only uses the
per-pair seeded generator. -/
def mockCheckAvailability (rollFn : Int → Rat) (sku postalCode : String) (g : GlobalRng) :
    Except String (List StoreAvailability) × GlobalRng :=
  match mockProducts.find? (fun p => toString p.sku == sku) with
  | none => (.error ("product not found: " ++ sku), g)
  | some product =>
    (.ok (mockAvailRows rollFn product.inStoreAvailability sku mockStores), g)

/-! ### The `CheckStock` aggregation loop of `handler/stockchecker.go` -/

/-- One row of the `CheckStock` response (`StockStatus` with its nested
`Store` and `Product` messages, restricted to the fields the handler
fills in). -/
structure StockStatus where
  storeID : String
  storeName : String
  city : String
  state : String
  productSKU : String
  productName : String
  salePrice : Rat
  inStock : Bool
  lowStock : Bool
  pickupEligible : Bool
deriving DecidableEq

/-- How `CheckStock` merges one availability record with the product
metadata into a response row. -/
def mkStockStatus (p : Product) (a : StoreAvailability) : StockStatus :=
  { storeID := a.storeID
    storeName := a.storeName
    city := a.city
    state := a.state
    productSKU := toString p.sku
    productName := p.name
    salePrice := p.salePrice
    inStock := a.inStock
    lowStock := a.lowStock
    pickupEligible := a.pickupEligible }

/-- The per-SKU loop of `CheckStock`: a failed product lookup or a
failed availability lookup logs and `continue`s, contributing nothing;
a successful pair contributes one row per availability record.  The
client calls are supplied as oracles (`getA` is the availability call at
the fixed requested store list). -/
def checkStockLoop (getP : String → Except OpError Product)
    (getA : String → Except OpError (List StoreAvailability)) :
    List String → List StockStatus
  | [] => []
  | sku :: rest =>
    (match getP sku with
     | .error _ => []
     | .ok p =>
       match getA sku with
       | .error _ => []
       | .ok av => av.map (mkStockStatus p)) ++ checkStockLoop getP getA rest

/-- Embedding of the `CheckStock` handler: empty store or SKU lists
short-circuit to an empty result, otherwise the per-SKU loop runs.  The
error channel is the RPC handler's error return, which `CheckStock`
never uses: every outcome is a successful response. -/
def checkStock (storeIDs skus : List String)
    (getP : String → Except OpError Product)
    (getA : String → Except OpError (List StoreAvailability)) :
    Except String (List StockStatus) :=
  if storeIDs.isEmpty || skus.isEmpty then .ok []
  else .ok (checkStockLoop getP getA skus)

/-- Whether an operation outcome is a success; used to phrase which
products the aggregation loop keeps. -/
def exceptOk {ε α : Type} : Except ε α → Bool
  | .ok _ => true
  | .error _ => false


/-! ### Terminal client errors (claim C3) -/
lemma attemptStep_terminal (cfg : Config) (attempt : Nat) (r : Response)
    (hrl : isRateLimitedResp r = false) (h4 : 400 ≤ r.status) (h5 : r.status < 500) :
    attemptStep cfg attempt (.resp r)
      = .done (.error (.apiStatus r.status r.body)) (.terminalClient r.status) := by
  have h200 : r.status ≠ 200 := by omega
  simp [attemptStep, hrl, h200, h4, h5]

/-- Claim C3: a response whose status is a 4xx other than the rate-limited
case is terminal: `doRequest` returns an error carrying the status code and
the response body, and exactly one request has been sent for that logical
call (no retries occur). -/
theorem terminal_client_error_single_attempt (cfg : Config) (oracle : Nat → Attempt)
    (s : RLState) (d : Nat) (r : Response)
    (ho : oracle 0 = ⟨d, .resp r⟩) (h4 : 400 ≤ r.status) (h5 : r.status < 500)
    (hrl : isRateLimitedResp r = false) :
    (doRequest cfg oracle s).result = .error (.apiStatus r.status r.body) ∧
    (doRequest cfg oracle s).sends.length = 1 := by
  unfold doRequest
  simp [doRequestAux, ho, attemptStep_terminal cfg 0 r hrl h4 h5]

/-- Witness for claim C3 at a concrete 404 response. -/
theorem terminal_client_error_single_attempt_witness :
    ((fun (_ : Nat) => (⟨0, .resp ⟨404, "not found", none⟩⟩ : Attempt)) 0
        = ⟨0, .resp ⟨404, "not found", none⟩⟩) ∧
    400 ≤ 404 ∧ 404 < 500 ∧ isRateLimitedResp ⟨404, "not found", none⟩ = false ∧
    ((doRequest ⟨350, 5, 1000⟩ (fun _ => ⟨0, .resp ⟨404, "not found", none⟩⟩) ⟨0, 0⟩).result
        = .error (.apiStatus 404 "not found") ∧
      (doRequest ⟨350, 5, 1000⟩ (fun _ => ⟨0, .resp ⟨404, "not found", none⟩⟩)
        ⟨0, 0⟩).sends.length = 1) :=
  ⟨rfl, by decide, by decide, by decide,
    terminal_client_error_single_attempt ⟨350, 5, 1000⟩ _ ⟨0, 0⟩ 0 ⟨404, "not found", none⟩
      rfl (by decide) (by decide) (by decide)⟩

/-! ### Success short-circuit (claim C4) -/
lemma attemptStep_success (cfg : Config) (attempt : Nat) (r : Response)
    (h200 : r.status = 200) :
    attemptStep cfg attempt (.resp r) = .done (.ok r.body) .success := by
  have hrl : isRateLimitedResp r = false := by simp [isRateLimitedResp, h200]
  simp [attemptStep, hrl, h200]

/-- Claim C4 (amended): a response with status code exactly 200 short-circuits
any attempt of `doRequest`: the body is returned immediately with no error
and no further attempts are made.  The claim as stated, for every 2xx
status, is refuted by `non_ok_2xx_retried_cex`: the code checks the status
against 200 exactly, so a 2xx status other than 200 is retried with
backoff rather than returned. -/
theorem status_200_short_circuits (cfg : Config) (oracle : Nat → Attempt)
    (attempt fuel : Nat) (lastE : Option ReqError) (s : RLState) (d : Nat) (r : Response)
    (hf : fuel ≠ 0) (ho : oracle attempt = ⟨d, .resp r⟩) (h200 : r.status = 200) :
    (doRequestAux cfg oracle attempt fuel lastE s).result = .ok r.body ∧
    (doRequestAux cfg oracle attempt fuel lastE s).sends.length = 1 := by
  obtain ⟨k, rfl⟩ := Nat.exists_eq_succ_of_ne_zero hf
  simp [doRequestAux, ho, attemptStep_success cfg attempt r h200]

/-- Counterexample to claim C4 as stated: a 204 response is never returned as
a success; with `maxRetries = 2` the client sends three requests and fails
with the retry-exhaustion error instead of short-circuiting. -/
theorem non_ok_2xx_retried_cex :
    (doRequest ⟨350, 2, 1000⟩ (fun _ => ⟨0, .resp ⟨204, "created", none⟩⟩) ⟨0, 0⟩).result
        ≠ .ok "created" ∧
    (doRequest ⟨350, 2, 1000⟩ (fun _ => ⟨0, .resp ⟨204, "created", none⟩⟩) ⟨0, 0⟩).result
        = .error (.maxRetriesExceeded (.apiStatus 204 "created")) ∧
    (doRequest ⟨350, 2, 1000⟩ (fun _ => ⟨0, .resp ⟨204, "created", none⟩⟩) ⟨0, 0⟩).sends.length
        = 3 :=
  ⟨by decide, by decide, by decide⟩

/-! ### Retry exhaustion on server errors (claim C5) -/
lemma isRateLimitedResp_false_of_5xx (r : Response) (h : 500 ≤ r.status) :
    isRateLimitedResp r = false := by
  have h429 : r.status ≠ 429 := by omega
  have h403 : r.status ≠ 403 := by omega
  simp [isRateLimitedResp, h429, h403]

lemma attemptStep_5xx (cfg : Config) (attempt : Nat) (r : Response)
    (h5a : 500 ≤ r.status) :
    attemptStep cfg attempt (.resp r)
      = .retry (.apiStatus r.status r.body) (cfg.retryBaseWait * 2 ^ attempt)
          (.statusRetry r.status (cfg.retryBaseWait * 2 ^ attempt)) := by
  have h200 : r.status ≠ 200 := by omega
  have h4 : ¬(400 ≤ r.status ∧ r.status < 500) := by omega
  simp [attemptStep, isRateLimitedResp_false_of_5xx r h5a, h200, h4]

lemma exhausted_5xx_aux (cfg : Config) (oracle : Nat → Attempt) :
    ∀ (fuel attempt : Nat) (lastE : Option ReqError) (s : RLState), fuel ≠ 0 →
    (∀ i, attempt ≤ i → i < attempt + fuel →
      ∃ d r, oracle i = ⟨d, .resp r⟩ ∧ 500 ≤ r.status ∧ r.status < 600) →
    ∃ d r, oracle (attempt + fuel - 1) = ⟨d, .resp r⟩ ∧
      (doRequestAux cfg oracle attempt fuel lastE s).result
        = .error (.maxRetriesExceeded (.apiStatus r.status r.body)) ∧
      (doRequestAux cfg oracle attempt fuel lastE s).sends.length = fuel := by
  intro fuel
  induction fuel with
  | zero => intro attempt lastE s hf; exact absurd rfl hf
  | succ k ih =>
    intro attempt lastE s _ h5
    obtain ⟨d, r, hor, h5a, h5b⟩ := h5 attempt le_rfl (by omega)
    cases k with
    | zero =>
      refine ⟨d, r, by simpa using hor, ?_, ?_⟩ <;>
        simp [doRequestAux, hor, attemptStep_5xx cfg attempt r h5a]
    | succ k2 =>
      obtain ⟨d2, r2, hor2, hres2, hlen2⟩ :=
        ih (attempt + 1) (some (.apiStatus r.status r.body))
          { now := s.now + throttleWait cfg.minInterval s + (oracle attempt).delay
              + cfg.retryBaseWait * 2 ^ attempt,
            lastRequest := s.now + throttleWait cfg.minInterval s }
          (by omega) (fun i hi1 hi2 => h5 i (by omega) (by omega))
      refine ⟨d2, r2, ?_, ?_, ?_⟩
      · have harith : attempt + 1 + (k2 + 1) - 1 = attempt + (k2 + 1 + 1) - 1 := by omega
        rwa [harith] at hor2
      · simpa [doRequestAux, hor, attemptStep_5xx cfg attempt r h5a] using hres2
      · simpa [doRequestAux, hor, attemptStep_5xx cfg attempt r h5a] using hlen2

/-- Claim C5: if every attempt of one logical call receives a 5xx response,
`doRequest` terminates (the model is a total function, witnessing
termination) after exactly `maxRetries + 1` attempts and returns the
`max retries exceeded` error wrapping the last observed failure. -/
theorem exhausted_5xx_attempt_count (cfg : Config) (oracle : Nat → Attempt) (s : RLState)
    (h5 : ∀ i, i ≤ cfg.maxRetries →
      ∃ d r, oracle i = ⟨d, .resp r⟩ ∧ 500 ≤ r.status ∧ r.status < 600) :
    ∃ d r, oracle cfg.maxRetries = ⟨d, .resp r⟩ ∧
      (doRequest cfg oracle s).result
        = .error (.maxRetriesExceeded (.apiStatus r.status r.body)) ∧
      (doRequest cfg oracle s).sends.length = cfg.maxRetries + 1 := by
  have h := exhausted_5xx_aux cfg oracle (cfg.maxRetries + 1) 0 none s (by omega)
    (fun i _ h2 => h5 i (by omega))
  simpa [doRequest] using h

/-! ### Rate-limit classification and waits (claim C2) -/
lemma isRateLimitedResp_iff (r : Response) :
    isRateLimitedResp r = true
      ↔ (r.status = 429 ∨ (r.status = 403 ∧ strContains r.body "per second limit" = true)) := by
  simp [isRateLimitedResp, Bool.or_eq_true, Bool.and_eq_true, beq_iff_eq]

lemma attemptStep_rl (cfg : Config) (attempt : Nat) (r : Response)
    (hrl : isRateLimitedResp r = true) :
    attemptStep cfg attempt (.resp r) =
      .retry
        (.rateLimited ((parseRetryAfterHeader r.retryAfter).getD
          (cfg.retryBaseWait * 2 ^ attempt)))
        ((parseRetryAfterHeader r.retryAfter).getD (cfg.retryBaseWait * 2 ^ attempt))
        (.rateLimited ((parseRetryAfterHeader r.retryAfter).getD
          (cfg.retryBaseWait * 2 ^ attempt))) := by
  simp [attemptStep, hrl]

lemma doRequestAux_retry_sends (cfg : Config) (oracle : Nat → Attempt) (attempt k : Nat)
    (lastE : Option ReqError) (s : RLState) (e : ReqError) (w : Nat) (ev : AttemptEvent)
    (h : attemptStep cfg attempt (oracle attempt).outcome = .retry e w ev) :
    (doRequestAux cfg oracle attempt (k + 1) lastE s).sends =
      (s.now + throttleWait cfg.minInterval s) ::
        (doRequestAux cfg oracle (attempt + 1) k (some e)
          ⟨s.now + throttleWait cfg.minInterval s + (oracle attempt).delay + w,
            s.now + throttleWait cfg.minInterval s⟩).sends := by
  simp only [doRequestAux, h]

lemma doRequestAux_retry_events (cfg : Config) (oracle : Nat → Attempt) (attempt k : Nat)
    (lastE : Option ReqError) (s : RLState) (e : ReqError) (w : Nat) (ev : AttemptEvent)
    (h : attemptStep cfg attempt (oracle attempt).outcome = .retry e w ev) :
    (doRequestAux cfg oracle attempt (k + 1) lastE s).events =
      ev :: (doRequestAux cfg oracle (attempt + 1) k (some e)
        ⟨s.now + throttleWait cfg.minInterval s + (oracle attempt).delay + w,
          s.now + throttleWait cfg.minInterval s⟩).events := by
  simp only [doRequestAux, h]

lemma doRequestAux_retry_result (cfg : Config) (oracle : Nat → Attempt) (attempt k : Nat)
    (lastE : Option ReqError) (s : RLState) (e : ReqError) (w : Nat) (ev : AttemptEvent)
    (h : attemptStep cfg attempt (oracle attempt).outcome = .retry e w ev) :
    (doRequestAux cfg oracle attempt (k + 1) lastE s).result =
      (doRequestAux cfg oracle (attempt + 1) k (some e)
        ⟨s.now + throttleWait cfg.minInterval s + (oracle attempt).delay + w,
          s.now + throttleWait cfg.minInterval s⟩).result := by
  simp only [doRequestAux, h]

lemma doRequestAux_retry_finalState (cfg : Config) (oracle : Nat → Attempt) (attempt k : Nat)
    (lastE : Option ReqError) (s : RLState) (e : ReqError) (w : Nat) (ev : AttemptEvent)
    (h : attemptStep cfg attempt (oracle attempt).outcome = .retry e w ev) :
    (doRequestAux cfg oracle attempt (k + 1) lastE s).finalState =
      (doRequestAux cfg oracle (attempt + 1) k (some e)
        ⟨s.now + throttleWait cfg.minInterval s + (oracle attempt).delay + w,
          s.now + throttleWait cfg.minInterval s⟩).finalState := by
  simp only [doRequestAux, h]

lemma doRequestAux_done_parts (cfg : Config) (oracle : Nat → Attempt) (attempt k : Nat)
    (lastE : Option ReqError) (s : RLState) (res : Except ReqError String) (ev : AttemptEvent)
    (h : attemptStep cfg attempt (oracle attempt).outcome = .done res ev) :
    (doRequestAux cfg oracle attempt (k + 1) lastE s).sends
        = [s.now + throttleWait cfg.minInterval s] ∧
    (doRequestAux cfg oracle attempt (k + 1) lastE s).events = [ev] ∧
    (doRequestAux cfg oracle attempt (k + 1) lastE s).result = res ∧
    (doRequestAux cfg oracle attempt (k + 1) lastE s).finalState =
      ⟨s.now + throttleWait cfg.minInterval s + (oracle attempt).delay,
        s.now + throttleWait cfg.minInterval s⟩ := by
  refine ⟨?_, ?_, ?_, ?_⟩ <;> simp only [doRequestAux, h]

lemma doRequestAux_sends_head (cfg : Config) (oracle : Nat → Attempt) (attempt k : Nat)
    (lastE : Option ReqError) (s : RLState) :
    (doRequestAux cfg oracle attempt (k + 1) lastE s).sends.head?
      = some (s.now + throttleWait cfg.minInterval s) := by
  cases h : attemptStep cfg attempt (oracle attempt).outcome with
  | done res ev =>
    rw [(doRequestAux_done_parts cfg oracle attempt k lastE s res ev h).1]
    rfl
  | retry e w ev =>
    rw [doRequestAux_retry_sends cfg oracle attempt k lastE s e w ev h]
    rfl

/-- Claim C2: an attempt of `doRequest` is classified rate-limited (and only
then waits the rate-limit backoff) exactly when the status is 429, or 403
with the vendor phrase in the body; the wait before the next retry is the
parsed `Retry-After` header when present and parseable and
`retryBaseWait * 2 ^ attempt` otherwise, and the next request is sent no
earlier than that wait after the current one. -/
theorem rate_limit_classification_and_wait (cfg : Config) (oracle : Nat → Attempt)
    (attempt fuel : Nat) (lastE : Option ReqError) (s : RLState) (d : Nat) (r : Response)
    (hf : 2 ≤ fuel) (ho : oracle attempt = ⟨d, .resp r⟩) :
    ((doRequestAux cfg oracle attempt fuel lastE s).events.head?
        = some (.rateLimited ((parseRetryAfterHeader r.retryAfter).getD
            (cfg.retryBaseWait * 2 ^ attempt)))
      ↔ (r.status = 429 ∨ (r.status = 403 ∧ strContains r.body "per second limit" = true)))
    ∧ ((r.status = 429 ∨ (r.status = 403 ∧ strContains r.body "per second limit" = true)) →
        ∃ t1 t2 rest,
          (doRequestAux cfg oracle attempt fuel lastE s).sends = t1 :: t2 :: rest ∧
          t1 + ((parseRetryAfterHeader r.retryAfter).getD (cfg.retryBaseWait * 2 ^ attempt))
            ≤ t2) := by
  obtain ⟨k, rfl⟩ : ∃ k, fuel = (k + 1) + 1 := ⟨fuel - 2, by omega⟩
  have hout : (oracle attempt).outcome = .resp r := by rw [ho]
  by_cases hrl : isRateLimitedResp r = true
  · have hstep : attemptStep cfg attempt (oracle attempt).outcome =
        .retry
          (.rateLimited ((parseRetryAfterHeader r.retryAfter).getD
            (cfg.retryBaseWait * 2 ^ attempt)))
          ((parseRetryAfterHeader r.retryAfter).getD (cfg.retryBaseWait * 2 ^ attempt))
          (.rateLimited ((parseRetryAfterHeader r.retryAfter).getD
            (cfg.retryBaseWait * 2 ^ attempt))) := by
      rw [hout]; exact attemptStep_rl cfg attempt r hrl
    constructor
    · rw [doRequestAux_retry_events cfg oracle attempt (k + 1) lastE s _ _ _ hstep]
      simp [(isRateLimitedResp_iff r).mp hrl]
    · intro _
      rw [doRequestAux_retry_sends cfg oracle attempt (k + 1) lastE s _ _ _ hstep]
      have hh := doRequestAux_sends_head cfg oracle (attempt + 1) k
        (some (.rateLimited ((parseRetryAfterHeader r.retryAfter).getD
          (cfg.retryBaseWait * 2 ^ attempt))))
        ⟨s.now + throttleWait cfg.minInterval s + (oracle attempt).delay +
            ((parseRetryAfterHeader r.retryAfter).getD (cfg.retryBaseWait * 2 ^ attempt)),
          s.now + throttleWait cfg.minInterval s⟩
      cases hsends : (doRequestAux cfg oracle (attempt + 1) (k + 1)
          (some (.rateLimited ((parseRetryAfterHeader r.retryAfter).getD
            (cfg.retryBaseWait * 2 ^ attempt))))
          ⟨s.now + throttleWait cfg.minInterval s + (oracle attempt).delay +
              ((parseRetryAfterHeader r.retryAfter).getD (cfg.retryBaseWait * 2 ^ attempt)),
            s.now + throttleWait cfg.minInterval s⟩).sends with
      | nil => rw [hsends] at hh; simp at hh
      | cons t2 rest2 =>
        rw [hsends] at hh
        simp only [List.head?_cons, Option.some.injEq] at hh
        exact ⟨s.now + throttleWait cfg.minInterval s, t2, rest2, by simp [hsends], by omega⟩
  · have hrlf : isRateLimitedResp r = false := by
      cases hb : isRateLimitedResp r
      · rfl
      · exact absurd hb hrl
    have hrhs : ¬(r.status = 429
        ∨ (r.status = 403 ∧ strContains r.body "per second limit" = true)) := by
      rw [← isRateLimitedResp_iff]
      simp [hrlf]
    refine ⟨?_, fun h => absurd h hrhs⟩
    by_cases h200 : r.status = 200
    · rw [(doRequestAux_done_parts cfg oracle attempt (k + 1) lastE s _ _
        (by rw [hout]; exact attemptStep_success cfg attempt r h200)).2.1]
      simp [hrhs]
    · by_cases h4 : 400 ≤ r.status ∧ r.status < 500
      · rw [(doRequestAux_done_parts cfg oracle attempt (k + 1) lastE s _ _
          (by rw [hout]; exact attemptStep_terminal cfg attempt r hrlf h4.1 h4.2)).2.1]
        simp [hrhs]
      · have hstep : attemptStep cfg attempt (oracle attempt).outcome
            = .retry (.apiStatus r.status r.body) (cfg.retryBaseWait * 2 ^ attempt)
                (.statusRetry r.status (cfg.retryBaseWait * 2 ^ attempt)) := by
          rw [hout]; simp [attemptStep, hrlf, h200, h4]
        rw [doRequestAux_retry_events cfg oracle attempt (k + 1) lastE s _ _ _ hstep]
        simp [hrhs]


/-- Witness for claim C2: a 429 response with a parseable `Retry-After` of 7
seconds at attempt 3. -/
theorem rate_limit_classification_and_wait_witness :
    (2 ≤ 4) ∧
    ((fun (_ : Nat) => (⟨0, .resp ⟨429, "slow down", some "7"⟩⟩ : Attempt)) 3
      = ⟨0, .resp ⟨429, "slow down", some "7"⟩⟩) ∧
    (((doRequestAux ⟨350, 5, 1000⟩ (fun _ => ⟨0, .resp ⟨429, "slow down", some "7"⟩⟩)
          3 4 none ⟨0, 0⟩).events.head?
        = some (.rateLimited ((parseRetryAfterHeader (some "7")).getD (1000 * 2 ^ 3)))
      ↔ (429 = 429 ∨ (429 = 403 ∧ strContains "slow down" "per second limit" = true)))
    ∧ ((429 = 429 ∨ (429 = 403 ∧ strContains "slow down" "per second limit" = true)) →
        ∃ t1 t2 rest,
          (doRequestAux ⟨350, 5, 1000⟩ (fun _ => ⟨0, .resp ⟨429, "slow down", some "7"⟩⟩)
            3 4 none ⟨0, 0⟩).sends = t1 :: t2 :: rest ∧
          t1 + ((parseRetryAfterHeader (some "7")).getD (1000 * 2 ^ 3)) ≤ t2)) :=
  ⟨by decide, rfl,
    rate_limit_classification_and_wait ⟨350, 5, 1000⟩ _ 3 4 none ⟨0, 0⟩ 0
      ⟨429, "slow down", some "7"⟩ (by decide) rfl⟩

/-! ### Minimum inter-request interval (claim C1) -/
lemma sendTime_bound (m : Nat) (s : RLState) (hs : s.lastRequest ≤ s.now) :
    s.lastRequest + m ≤ s.now + throttleWait m s := by
  unfold throttleWait
  split <;> omega

lemma doRequestAux_chain (cfg : Config) (oracle : Nat → Attempt) :
    ∀ (fuel attempt : Nat) (lastE : Option ReqError) (s : RLState),
    s.lastRequest ≤ s.now →
    List.Chain' (fun a b => a + cfg.minInterval ≤ b)
      (doRequestAux cfg oracle attempt fuel lastE s).sends ∧
    (∀ t, (doRequestAux cfg oracle attempt fuel lastE s).sends.head? = some t →
      s.lastRequest + cfg.minInterval ≤ t) ∧
    (doRequestAux cfg oracle attempt fuel lastE s).finalState.lastRequest
      = ((doRequestAux cfg oracle attempt fuel lastE s).sends.getLast?).getD s.lastRequest ∧
    (doRequestAux cfg oracle attempt fuel lastE s).finalState.lastRequest
      ≤ (doRequestAux cfg oracle attempt fuel lastE s).finalState.now := by
  intro fuel
  induction fuel with
  | zero =>
    intro attempt lastE s hs
    simp only [doRequestAux]
    exact ⟨List.chain'_nil, fun t ht => by simp at ht, rfl, hs⟩
  | succ k ih =>
    intro attempt lastE s hs
    cases hstep : attemptStep cfg attempt (oracle attempt).outcome with
    | done res ev =>
      obtain ⟨hsend, _, _, hfin⟩ := doRequestAux_done_parts cfg oracle attempt k lastE s res ev hstep
      rw [hsend, hfin]
      refine ⟨List.chain'_singleton _, ?_, ?_, ?_⟩
      · intro t ht
        simp only [List.head?_cons, Option.some.injEq] at ht
        subst ht
        exact sendTime_bound cfg.minInterval s hs
      · rfl
      · simp
    | retry e w ev =>
      obtain ⟨ihChain, ihHead, ihLast, ihInv⟩ := ih (attempt + 1) (some e)
        ⟨s.now + throttleWait cfg.minInterval s + (oracle attempt).delay + w,
          s.now + throttleWait cfg.minInterval s⟩ (by simp; omega)
      rw [doRequestAux_retry_sends cfg oracle attempt k lastE s e w ev hstep,
        doRequestAux_retry_finalState cfg oracle attempt k lastE s e w ev hstep]
      refine ⟨?_, ?_, ?_, ihInv⟩
      · rw [List.chain'_cons']
        exact ⟨fun b hb => ihHead b hb, ihChain⟩
      · intro t ht
        simp only [List.head?_cons, Option.some.injEq] at ht
        subst ht
        exact sendTime_bound cfg.minInterval s hs
      · cases hrest : (doRequestAux cfg oracle (attempt + 1) k (some e)
            ⟨s.now + throttleWait cfg.minInterval s + (oracle attempt).delay + w,
              s.now + throttleWait cfg.minInterval s⟩).sends with
        | nil =>
          rw [hrest] at ihLast
          simpa using ihLast
        | cons u us =>
          rw [hrest] at ihLast
          rw [List.getLast?_cons_cons]
          simpa using ihLast

lemma getLast?_append_getD {α : Type} (l₁ l₂ : List α) (d : α) :
    ((l₁ ++ l₂).getLast?).getD d = (l₂.getLast?).getD ((l₁.getLast?).getD d) := by
  cases hl : l₂ with
  | nil => simp
  | cons b bs =>
    rw [List.getLast?_append_of_ne_nil _ (by simp)]
    cases hbb : (b :: bs).getLast? with
    | none => simp [List.getLast?] at hbb
    | some v => simp

lemma doRequest_chain (cfg : Config) (oracle : Nat → Attempt) (s : RLState)
    (hs : s.lastRequest ≤ s.now) :
    List.Chain' (fun a b => a + cfg.minInterval ≤ b) (doRequest cfg oracle s).sends ∧
    (∀ t, (doRequest cfg oracle s).sends.head? = some t →
      s.lastRequest + cfg.minInterval ≤ t) ∧
    (doRequest cfg oracle s).finalState.lastRequest
      = ((doRequest cfg oracle s).sends.getLast?).getD s.lastRequest ∧
    (doRequest cfg oracle s).finalState.lastRequest
      ≤ (doRequest cfg oracle s).finalState.now :=
  doRequestAux_chain cfg oracle (cfg.maxRetries + 1) 0 none s hs

lemma runCalls_chain (cfg : Config) :
    ∀ (os : List (Nat → Attempt)) (s : RLState), s.lastRequest ≤ s.now →
    List.Chain' (fun a b => a + cfg.minInterval ≤ b) (runCalls cfg os s).1 ∧
    (∀ t, (runCalls cfg os s).1.head? = some t → s.lastRequest + cfg.minInterval ≤ t) ∧
    (runCalls cfg os s).2.lastRequest
      = ((runCalls cfg os s).1.getLast?).getD s.lastRequest ∧
    (runCalls cfg os s).2.lastRequest ≤ (runCalls cfg os s).2.now := by
  intro os
  induction os with
  | nil =>
    intro s hs
    simp only [runCalls]
    exact ⟨List.chain'_nil, fun t ht => by simp at ht, rfl, hs⟩
  | cons o os ih =>
    intro s hs
    obtain ⟨rChain, rHead, rLast, rInv⟩ := doRequest_chain cfg o s hs
    obtain ⟨restChain, restHead, restLast, restInv⟩ := ih (doRequest cfg o s).finalState rInv
    simp only [runCalls]
    refine ⟨?_, ?_, ?_, restInv⟩
    · refine List.Chain'.append rChain restChain ?_
      intro x hx y hy
      rw [Option.mem_def] at hx hy
      have hxl : (doRequest cfg o s).finalState.lastRequest = x := by rw [rLast, hx]; rfl
      have h2 := restHead y hy
      omega
    · intro t ht
      cases hcase : (doRequest cfg o s).sends with
      | nil =>
        rw [hcase] at ht
        simp only [List.nil_append] at ht
        have h2 := restHead t ht
        rw [rLast, hcase] at h2
        simpa using h2
      | cons a as =>
        rw [hcase] at ht
        simp only [List.cons_append, List.head?_cons, Option.some.injEq] at ht
        subst ht
        exact rHead a (by rw [hcase]; rfl)
    · rw [getLast?_append_getD, ← rLast]
      exact restLast

/-- Claim C1: for any configuration and any sequence of logical calls issued
back-to-back through one client instance — whatever each attempt returns,
so including retries within one call and attempts of later calls — the send
times of consecutive outbound requests differ by at least `minInterval`,
and the shared `lastRequest` watermark ends up equal to the time of the
last send (it is advanced at every attempt before sending, not only on
success; the conclusion holds for runs that never succeed). -/
theorem min_interval_between_sends (cfg : Config) (os : List (Nat → Attempt)) (s : RLState)
    (hm : 0 < cfg.minInterval) (hs : s.lastRequest ≤ s.now) :
    List.Chain' (fun a b => a + cfg.minInterval ≤ b) (runCalls cfg os s).1 ∧
    (runCalls cfg os s).2.lastRequest
      = ((runCalls cfg os s).1.getLast?).getD s.lastRequest :=
  ⟨(runCalls_chain cfg os s hs).1, (runCalls_chain cfg os s hs).2.2.1⟩

/-- Witness for claim C1: two back-to-back calls, the first exhausting its
retries against 500 responses, the second succeeding. -/
theorem min_interval_between_sends_witness :
    0 < (350 : Nat) ∧ (0 : Nat) ≤ 0 ∧
    (List.Chain' (fun a b => a + (⟨350, 1, 1000⟩ : Config).minInterval ≤ b)
      (runCalls ⟨350, 1, 1000⟩
        [fun _ => ⟨0, .resp ⟨500, "boom", none⟩⟩, fun _ => ⟨0, .resp ⟨200, "ok", none⟩⟩]
        ⟨0, 0⟩).1 ∧
    (runCalls ⟨350, 1, 1000⟩
        [fun _ => ⟨0, .resp ⟨500, "boom", none⟩⟩, fun _ => ⟨0, .resp ⟨200, "ok", none⟩⟩]
        ⟨0, 0⟩).2.lastRequest
      = (((runCalls ⟨350, 1, 1000⟩
          [fun _ => ⟨0, .resp ⟨500, "boom", none⟩⟩, fun _ => ⟨0, .resp ⟨200, "ok", none⟩⟩]
          ⟨0, 0⟩).1.getLast?).getD 0)) :=
  ⟨by decide, by decide,
    min_interval_between_sends ⟨350, 1, 1000⟩
      [fun _ => ⟨0, .resp ⟨500, "boom", none⟩⟩, fun _ => ⟨0, .resp ⟨200, "ok", none⟩⟩]
      ⟨0, 0⟩ (by decide) (by decide)⟩


/-- Witness for the amended claim C4 at a concrete 200 response. -/
theorem status_200_short_circuits_witness :
    (doRequestAux ⟨350, 5, 1000⟩ (fun _ => ⟨7, .resp ⟨200, "payload", none⟩⟩)
        2 4 none ⟨0, 0⟩).result = .ok "payload" ∧
    (doRequestAux ⟨350, 5, 1000⟩ (fun _ => ⟨7, .resp ⟨200, "payload", none⟩⟩)
        2 4 none ⟨0, 0⟩).sends.length = 1 :=
  status_200_short_circuits ⟨350, 5, 1000⟩ _ 2 4 none ⟨0, 0⟩ 7 ⟨200, "payload", none⟩
    (by decide) rfl rfl

/-- Witness for claim C5: three 500 responses with `maxRetries = 2`. -/
theorem exhausted_5xx_attempt_count_witness :
    (doRequest ⟨350, 2, 1000⟩ (fun _ => ⟨0, .resp ⟨500, "oops", none⟩⟩) ⟨0, 0⟩).result
      = .error (.maxRetriesExceeded (.apiStatus 500 "oops")) ∧
    (doRequest ⟨350, 2, 1000⟩ (fun _ => ⟨0, .resp ⟨500, "oops", none⟩⟩) ⟨0, 0⟩).sends.length
      = 2 + 1 := by
  obtain ⟨d, r, hor, hres, hlen⟩ := exhausted_5xx_attempt_count ⟨350, 2, 1000⟩
    (fun _ => ⟨0, .resp ⟨500, "oops", none⟩⟩) ⟨0, 0⟩
    (fun i _ => ⟨0, ⟨500, "oops", none⟩, rfl, by decide, by decide⟩)
  have hd : (⟨0, .resp ⟨500, "oops", none⟩⟩ : Attempt) = ⟨d, .resp r⟩ := hor
  injection hd with h1 h2
  injection h2 with h3
  subst h3
  exact ⟨hres, hlen⟩

/-! ### Error propagation of the client operations (claim C6) -/
/-- Counterexample to claim C6 as stated: `CheckAvailability` converts a
`doRequest` failure whose message contains "403" into a successful empty
result instead of propagating it. -/
theorem check_availability_swallows_403_cex :
    checkAvailabilityHandle (.error (.apiStatus 403 "Forbidden")) (fun _ => none)
      = .ok [] := rfl

/-- Claim C6 (amended): every client operation propagates a failed underlying
request as an error, with two code-mandated exceptions: CheckAvailability
maps a request failure whose message contains "403" to a successful empty
result, and a SKU-looking SearchProducts query first tries a direct lookup
whose failure falls back to the keyword search rather than erroring (the
keyword-search failure itself is propagated). -/
theorem error_propagation_with_403_carveout
    (e e2 : ReqError) (q q2 : String) (es : OpError)
    (d1 : String → Option (List Store)) (d2 : String → Option Product)
    (d3 : String → Option (List Product)) (d4 : String → Option (List Product))
    (d5 : String → Option (List Product)) (dA : String → Option (List SPRow))
    (skuRes : Except OpError Product)
    (h1 : strContains (reqErrorMessage e) "403" = false)
    (h2 : strContains (reqErrorMessage e2) "403" = true)
    (hq : looksLikeSKU q = false) :
    searchStoresHandle (.error e) d1 = .error (.request e) ∧
    getProductBySKUHandle (.error e) d2 = .error (.request e) ∧
    browsePokemonHandle (.error e) d3 = .error (.request e) ∧
    searchProductsHandle q skuRes (.error e) d4 = .error (.request e) ∧
    searchProductsHandle q2 (.error es) (.error e) d5 = .error (.request e) ∧
    checkAvailabilityHandle (.error e) dA = .error (.request e) ∧
    checkAvailabilityHandle (.error e2) dA = .ok [] := by
  refine ⟨rfl, rfl, rfl, ?_, ?_, ?_, ?_⟩
  · simp [searchProductsHandle, hq, handleBody]
  · unfold searchProductsHandle
    split
    · rfl
    · rfl
  · simp [checkAvailabilityHandle, h1]
  · simp [checkAvailabilityHandle, h2]

/-- Witness for the amended claim C6 at concrete errors and queries. -/
theorem error_propagation_with_403_carveout_witness :
    strContains (reqErrorMessage (.apiStatus 500 "boom")) "403" = false ∧
    strContains (reqErrorMessage (.apiStatus 403 "Forbidden")) "403" = true ∧
    looksLikeSKU "elite box" = false ∧
    (searchStoresHandle (.error (.apiStatus 500 "boom")) (fun _ => none)
        = .error (.request (.apiStatus 500 "boom")) ∧
      getProductBySKUHandle (.error (.apiStatus 500 "boom")) (fun _ => none)
        = .error (.request (.apiStatus 500 "boom")) ∧
      browsePokemonHandle (.error (.apiStatus 500 "boom")) (fun _ => none)
        = .error (.request (.apiStatus 500 "boom")) ∧
      searchProductsHandle "elite box" (.error .decodeFailed)
          (.error (.apiStatus 500 "boom")) (fun _ => none)
        = .error (.request (.apiStatus 500 "boom")) ∧
      searchProductsHandle "6579543" (.error .decodeFailed)
          (.error (.apiStatus 500 "boom")) (fun _ => none)
        = .error (.request (.apiStatus 500 "boom")) ∧
      checkAvailabilityHandle (.error (.apiStatus 500 "boom")) (fun _ => none)
        = .error (.request (.apiStatus 500 "boom")) ∧
      checkAvailabilityHandle (.error (.apiStatus 403 "Forbidden")) (fun _ => none)
        = .ok []) :=
  ⟨by decide, by decide, by decide,
    error_propagation_with_403_carveout (.apiStatus 500 "boom") (.apiStatus 403 "Forbidden")
      "elite box" "6579543" .decodeFailed (fun _ => none) (fun _ => none) (fun _ => none)
      (fun _ => none) (fun _ => none) (fun _ => none) (.error .decodeFailed)
      (by decide) (by decide) (by decide)⟩

/-! ### The aggregation loop and per-product failures (claim C7) -/
lemma checkStockLoop_filter (getP : String → Except OpError Product)
    (getA : String → Except OpError (List StoreAvailability)) :
    ∀ skus : List String,
    checkStockLoop getP getA skus
      = ((skus.filter (fun sku => exceptOk (getP sku) && exceptOk (getA sku))).flatMap
          (fun sku => match getP sku, getA sku with
            | .ok p, .ok av => av.map (mkStockStatus p)
            | _, _ => [])) := by
  intro skus
  induction skus with
  | nil => rfl
  | cons sku rest ih =>
    simp only [checkStockLoop, List.filter_cons]
    cases hp : getP sku with
    | error err => simp [exceptOk, hp, ih]
    | ok p =>
      cases ha : getA sku with
      | error err => simp [exceptOk, hp, ha, ih]
      | ok av => simp [exceptOk, hp, ha, ih]

/-- Claim C7 (amended): in the `CheckStock` aggregation loop a per-product
failure (product-metadata or availability lookup) causes only that product
to be skipped; the returned rows are exactly those of the products whose
two lookups succeeded, in order.  The rest of the claim as stated is
refuted by `total_failure_returns_ok_empty_cex`: failures are only logged
server-side, nothing reports the skipped products to the caller, and no
hard failure is surfaced even when every requested product failed. -/
theorem check_stock_skips_failed_products (storeIDs skus : List String)
    (getP : String → Except OpError Product)
    (getA : String → Except OpError (List StoreAvailability))
    (hs : storeIDs ≠ []) :
    checkStock storeIDs skus getP getA
      = .ok ((skus.filter (fun sku => exceptOk (getP sku) && exceptOk (getA sku))).flatMap
          (fun sku => match getP sku, getA sku with
            | .ok p, .ok av => av.map (mkStockStatus p)
            | _, _ => [])) := by
  have hse : storeIDs.isEmpty = false := by
    cases storeIDs with
    | nil => exact absurd rfl hs
    | cons a as => rfl
  unfold checkStock
  rw [hse]
  simp only [Bool.false_or]
  split
  · next hsk =>
    have hnil : skus = [] := List.isEmpty_iff.mp hsk
    subst hnil
    rfl
  · exact congrArg Except.ok (checkStockLoop_filter getP getA skus)

/-- Counterexample to claim C7 as stated: when every product lookup fails the
handler still returns a successful, empty response — no hard overall
failure is surfaced and no skip report reaches the caller. -/
theorem total_failure_returns_ok_empty_cex :
    checkStock ["1118"] ["6579543", "6579544", "6579545"]
      (fun _ => .error (.request (.apiStatus 500 "server error")))
      (fun _ => .error (.request (.apiStatus 500 "server error")))
      = .ok [] := rfl

/-- Witness for the amended claim C7: the spec scenario of three products
where the second lookup fails. -/
theorem check_stock_skips_failed_products_witness :
    (["1118"] : List String) ≠ [] ∧
    checkStock ["1118"] ["6579543", "6579544", "6579545"]
      (fun sku => if sku == "6579544"
        then (.error (.request (.apiStatus 500 "boom")) : Except OpError Product)
        else .ok ⟨6579543, "Prismatic Evolutions ETB", mkRat 5999 100, true, false⟩)
      (fun _ => .ok [⟨"1118", "Best Buy - San Francisco", "San Francisco", "CA", 0,
        true, false, true⟩])
      = .ok (((["6579543", "6579544", "6579545"] : List String).filter
          (fun sku => exceptOk ((fun sku => if sku == "6579544"
              then (.error (.request (.apiStatus 500 "boom")) : Except OpError Product)
              else .ok ⟨6579543, "Prismatic Evolutions ETB", mkRat 5999 100, true, false⟩) sku)
            && exceptOk ((fun _ => (.ok [⟨"1118", "Best Buy - San Francisco",
              "San Francisco", "CA", 0, true, false, true⟩]
                : Except OpError (List StoreAvailability))) sku))).flatMap
          (fun sku => match (fun sku => if sku == "6579544"
              then (.error (.request (.apiStatus 500 "boom")) : Except OpError Product)
              else .ok ⟨6579543, "Prismatic Evolutions ETB", mkRat 5999 100, true, false⟩) sku,
            (fun _ => (.ok [⟨"1118", "Best Buy - San Francisco", "San Francisco", "CA", 0,
              true, false, true⟩] : Except OpError (List StoreAvailability))) sku with
            | .ok p, .ok av => av.map (mkStockStatus p)
            | _, _ => [])) :=
  ⟨by decide,
    check_stock_skips_failed_products ["1118"] ["6579543", "6579544", "6579545"]
      (fun sku => if sku == "6579544"
        then (.error (.request (.apiStatus 500 "boom")) : Except OpError Product)
        else .ok ⟨6579543, "Prismatic Evolutions ETB", mkRat 5999 100, true, false⟩)
      (fun _ => .ok [⟨"1118", "Best Buy - San Francisco", "San Francisco", "CA", 0,
        true, false, true⟩])
      (by decide)⟩

/-! ### Availability record invariants (claim C8) -/
lemma mockAvailRows_inStock (rollFn : Int → Rat) (carried : Bool) (sku : String) :
    ∀ (stores : List Store) (rec : StoreAvailability),
    rec ∈ mockAvailRows rollFn carried sku stores → rec.inStock = true := by
  intro stores
  induction stores with
  | nil => intro rec h; simp [mockAvailRows] at h
  | cons store rest ih =>
    intro rec h
    simp only [mockAvailRows] at h
    rw [List.mem_append] at h
    cases h with
    | inl hl =>
      by_cases hc : (mockClassify rollFn carried (toString store.storeID) sku).1 = true
      · rw [if_pos hc] at hl
        simp only [List.mem_singleton] at hl
        subst hl
        exact hc
      · rw [if_neg hc] at hl
        simp at hl
    | inr hr => exact ih rec hr

/-- Claim C8: every `StoreAvailability` record returned by the real client
conversion and by the fixture client alike has `InStock = true`, and in
particular no returned record has `LowStock = true` together with
`InStock = false`. -/
theorem availability_records_always_in_stock
    (rows : List SPRow) (rec1 : StoreAvailability)
    (rollFn : Int → Rat) (sku postal : String) (g : GlobalRng)
    (recs : List StoreAvailability) (rec2 : StoreAvailability)
    (h1 : rec1 ∈ convertAvailability rows)
    (h2 : (mockCheckAvailability rollFn sku postal g).1 = .ok recs)
    (h3 : rec2 ∈ recs) :
    (rec1.inStock = true ∧ ¬(rec1.lowStock = true ∧ rec1.inStock = false)) ∧
    (rec2.inStock = true ∧ ¬(rec2.lowStock = true ∧ rec2.inStock = false)) := by
  constructor
  · obtain ⟨st, hst, hrec⟩ := List.mem_map.mp h1
    constructor
    · rw [← hrec]
    · rw [← hrec]
      simp
  · unfold mockCheckAvailability at h2
    cases hfind : mockProducts.find? (fun p => toString p.sku == sku) with
    | none =>
      rw [hfind] at h2
      simp at h2
    | some product =>
      rw [hfind] at h2
      simp only [Except.ok.injEq] at h2
      subst h2
      have hin := mockAvailRows_inStock rollFn product.inStoreAvailability sku mockStores rec2 h3
      exact ⟨hin, by simp [hin]⟩

/-- Witness for claim C8 at a concrete response row and fixture roll. -/
theorem availability_records_always_in_stock_witness :
    ((⟨"1118", "Best Buy - San Francisco", "San Francisco", "CA", 0, true, false, true⟩
        : StoreAvailability)
      ∈ convertAvailability [⟨1118, "Best Buy - San Francisco", "San Francisco", "CA", 0,
        [⟨6579543, "Prismatic Evolutions ETB", true, false⟩]⟩]) ∧
    ((mockCheckAvailability (fun _ => 0) "6579543" "94103" []).1
      = .ok (mockAvailRows (fun _ => 0) true "6579543" mockStores)) ∧
    ((⟨"1118", "Best Buy - San Francisco", "San Francisco", "CA", 0, true, false, true⟩
        : StoreAvailability)
      ∈ mockAvailRows (fun _ => 0) true "6579543" mockStores) ∧
    (((⟨"1118", "Best Buy - San Francisco", "San Francisco", "CA", 0, true, false, true⟩
        : StoreAvailability).inStock = true ∧
      ¬((⟨"1118", "Best Buy - San Francisco", "San Francisco", "CA", 0, true, false, true⟩
        : StoreAvailability).lowStock = true ∧
        (⟨"1118", "Best Buy - San Francisco", "San Francisco", "CA", 0, true, false, true⟩
        : StoreAvailability).inStock = false)) ∧
      ((⟨"1118", "Best Buy - San Francisco", "San Francisco", "CA", 0, true, false, true⟩
        : StoreAvailability).inStock = true ∧
      ¬((⟨"1118", "Best Buy - San Francisco", "San Francisco", "CA", 0, true, false, true⟩
        : StoreAvailability).lowStock = true ∧
        (⟨"1118", "Best Buy - San Francisco", "San Francisco", "CA", 0, true, false, true⟩
        : StoreAvailability).inStock = false))) :=
  ⟨by decide, rfl, by decide,
    availability_records_always_in_stock
      [⟨1118, "Best Buy - San Francisco", "San Francisco", "CA", 0,
        [⟨6579543, "Prismatic Evolutions ETB", true, false⟩]⟩]
      ⟨"1118", "Best Buy - San Francisco", "San Francisco", "CA", 0, true, false, true⟩
      (fun _ => 0) "6579543" "94103" []
      (mockAvailRows (fun _ => 0) true "6579543" mockStores)
      ⟨"1118", "Best Buy - San Francisco", "San Francisco", "CA", 0, true, false, true⟩
      (by decide) rfl (by decide)⟩

/-! ### Determinism of the fixture availability roll (claim C9) -/
/-- Claim C9: the fixture availability classification is deterministic within
a process run: the result of `MockClient.CheckAvailability` is independent
of the process-global generator state (and of the postal-code argument),
and the per-pair classification factors through the seed computed from the
(store id, product id) pair alone. -/
theorem mock_availability_deterministic (rollFn : Int → Rat) (sku postal postal2 : String)
    (g g2 : GlobalRng) (carried : Bool) (sid sid2 sku1 sku2 : String)
    (hseed : charSum (sid ++ sku1) = charSum (sid2 ++ sku2)) :
    (mockCheckAvailability rollFn sku postal g).1
      = (mockCheckAvailability rollFn sku postal2 g2).1 ∧
    mockClassify rollFn carried sid sku1 = mockClassify rollFn carried sid2 sku2 := by
  constructor
  · unfold mockCheckAvailability
    cases mockProducts.find? (fun p => toString p.sku == sku) <;> rfl
  · unfold mockClassify
    rw [hseed]

/-- Witness for claim C9: the same SKU queried under two different global
generator states and postal codes, and two distinct pairs with equal
seeds. -/
theorem mock_availability_deterministic_witness :
    charSum ("12" ++ "34") = charSum ("13" ++ "24") ∧
    ((mockCheckAvailability (fun _ => 0) "6579543" "94103" []).1
      = (mockCheckAvailability (fun _ => 0) "6579543" "10001" [mkRat 1 2]).1 ∧
    mockClassify (fun _ => 0) true "12" "34" = mockClassify (fun _ => 0) true "13" "24") :=
  ⟨by decide,
    mock_availability_deterministic (fun _ => 0) "6579543" "94103" "10001" [] [mkRat 1 2]
      true "12" "13" "34" "24" (by decide)⟩

/-! ### The fixture availability contract (claim C10) -/
/-- Claim C10, evaluated at the failing input: the fixture
`MockClient.CheckAvailability` takes a postal-code string — not the
store-identifier list required by the `Client` interface it is assigned
to — and returns availability records for every fixture store, so the
result is not restricted to any requested store list (here all six fixture
stores appear). -/
theorem mock_ignores_requested_stores :
    (mockCheckAvailability (fun _ => 0) "6579543" "94103" []).1
      = .ok (mockAvailRows (fun _ => 0) true "6579543" mockStores) ∧
    (mockAvailRows (fun _ => 0) true "6579543" mockStores).map (fun r => r.storeID)
      = ["1118", "1009", "187", "1444", "573", "499"] :=
  ⟨rfl, by decide⟩



end StockChecker
